import Mathlib

/-!
Verification development for the SVM virtual machine and its assembler.

The definitions below are a shallow embedding of the C sources:
  * `svm.c` / `svm.h` (task-based variant): the execution cycle, the task
    scheduler and the helpers `svm_get_arg_value`, `svm_check_condition`,
    `svm_arg_to_reg`, `svm_is_arg_register`, `svm_set_flag_by_ext`,
    `svm_check_value_set_nz_z_flags`;
  * `svm_util.c`: `svm_to_int32`;
  * `svm_asm.c`: the comment-skipping loop of the tokenizer.

Machine integers are modelled as `Nat` (for the unsigned counters `pc`,
`rpc`, `sp` — the C guards keep them away from wrap-around in all paths the
theorems touch) and `Int` with explicit reduction `mod 2^32` where 32-bit
overflow matters (`wrap32`).  C arrays become Lean lists; an out-of-bounds
C read (undefined behaviour in the source) is modelled as `List.getD _ _ 0`.
-/

/-! ## Enumeration constants (svm.h) -/

def OP_NOP : Nat := 0
def OP_END : Nat := 1
def OP_MOV : Nat := 2
def OP_PUSH : Nat := 3
def OP_POP : Nat := 4
def OP_ADD : Nat := 5
def OP_SUB : Nat := 6
def OP_MUL : Nat := 7
def OP_DIV : Nat := 8
def OP_AND : Nat := 9
def OP_OR : Nat := 10
def OP_XOR : Nat := 11
def OP_SHL : Nat := 12
def OP_SHR : Nat := 13
def OP_CMP : Nat := 14
def OP_CLF : Nat := 15
def OP_JMP : Nat := 16
def OP_INV : Nat := 17
def OP_RET : Nat := 18
def OP_SYS : Nat := 19
def OP_MAX : Nat := 20

def EXT_NONE : Nat := 0
def EXT_EQ : Nat := 1
def EXT_NE : Nat := 2
def EXT_LT : Nat := 3
def EXT_LE : Nat := 4
def EXT_GT : Nat := 5
def EXT_GE : Nat := 6
def EXT_NZ : Nat := 7
def EXT_Z : Nat := 8
def EXT_MAX : Nat := 9

def ARG_NONE : Nat := 0
def ARG_IMM : Nat := 17
def ARG_MAX : Nat := 18

def R_MAX : Nat := 16

/-- SVM core error codes (svm.h, task-based variant). -/
inductive svm_error_t where
  | SVM_OK
  | SVM_ERR
  | SVM_ERR_NULL
  | SVM_ERR_BAD_ALLOC
  | SVM_ERR_NOT_RUNNING
  | SVM_ERR_CODE_OVERFLOW
  | SVM_ERR_ARG_NOT_REG
  | SVM_ERR_PUSH_ARG_BAD_ORDER
  | SVM_ERR_JMP_OVERFLOW
  | SVM_ERR_CALL_STK_OVERFLOW
  | SVM_ERR_CALL_STK_UNDERFLOW
  | SVM_ERR_STK_OVERFLOW
  | SVM_ERR_STK_UNDERFLOW
  | SVM_ERR_TASK_NOT_FOUND
  | SVM_ERR_TASK_SWITCH_BLOCKED
  | SVM_ERR_UNKNOWN_INSTRUCTION
deriving DecidableEq, Repr

export svm_error_t (SVM_OK SVM_ERR SVM_ERR_NULL SVM_ERR_BAD_ALLOC
  SVM_ERR_NOT_RUNNING SVM_ERR_CODE_OVERFLOW SVM_ERR_ARG_NOT_REG
  SVM_ERR_PUSH_ARG_BAD_ORDER SVM_ERR_JMP_OVERFLOW SVM_ERR_CALL_STK_OVERFLOW
  SVM_ERR_CALL_STK_UNDERFLOW SVM_ERR_STK_OVERFLOW SVM_ERR_STK_UNDERFLOW
  SVM_ERR_TASK_NOT_FOUND SVM_ERR_TASK_SWITCH_BLOCKED
  SVM_ERR_UNKNOWN_INSTRUCTION)

/-! ## Data model (svm.h) -/

/-- The eight per-task condition flags (the packed bitfield of `svm_task_t`). -/
structure SvmFlags where
  eq : Bool
  ne : Bool
  lt : Bool
  le : Bool
  gt : Bool
  ge : Bool
  nz : Bool
  z : Bool
deriving DecidableEq, Repr

/-- One task (`svm_task_t`).  `stack`/`call_stack` model the allocated
buffers; their C `size` field is the list length. -/
structure svm_task_t where
  flags : SvmFlags
  pc : Nat
  rpc : Nat
  sp : Nat
  registers : List Int
  stack : List Int
  call_stack : List Int
deriving DecidableEq, Repr

/-- The VM (`svm_t`) restricted to the parts the execution cycle touches:
the global `running` flag, the current task and the loaded code buffer
(`vm->code->buffer`; `vm->code->size` is the list length). -/
structure svm_t where
  running : Bool
  task : svm_task_t
  code : List Int
deriving DecidableEq, Repr

/-- A decoded instruction word (`svm_instruction_t`): four byte fields. -/
structure svm_instruction_t where
  op : Nat
  ext : Nat
  arg1 : Nat
  arg2 : Nat
deriving DecidableEq, Repr

/-- `svm_pack_instruction` (svm.c). -/
def svm_pack_instruction (op ext arg1 arg2 : Nat) : svm_instruction_t :=
  ⟨op, ext, arg1, arg2⟩

/-- `svm_instruction_to_int32` (svm.c): the packed little-endian struct
reinterpreted as an `int32_t`, i.e. `op | ext<<8 | arg1<<16 | arg2<<24`. -/
def svm_instruction_to_int32 (i : svm_instruction_t) : Int :=
  ((i.op % 256) + (i.ext % 256) * 256 + (i.arg1 % 256) * 65536 +
    (i.arg2 % 256) * 16777216 : Nat)

/-- Reading a code word back as an `svm_instruction_t` (the cast
`(svm_instruction_t *) &buffer[pc]` in `svm_cycle`). -/
def svm_decode_instruction (w : Int) : svm_instruction_t :=
  let n := (w % 4294967296).toNat
  ⟨n % 256, n / 256 % 256, n / 65536 % 256, n / 16777216 % 256⟩

/-- Reduction of an `Int` to the signed 32-bit value a C `int32_t`
computation stores. -/
def wrap32 (x : Int) : Int := (x + 2147483648) % 4294967296 - 2147483648

/-- Conversion of an `int32_t` to `uint32_t`, as the usual arithmetic
conversions do in comparisons such as `arg1 < vm->code->size`. -/
def to_uint32 (x : Int) : Nat := (x % 4294967296).toNat

/-! ## Private helpers of svm.c -/

/-- `svm_is_arg_register`: `type > ARG_NONE && type < ARG_IMM`. -/
def svm_is_arg_register (ty : Nat) : Bool :=
  decide (ARG_NONE < ty) && decide (ty < ARG_IMM)

/-- `svm_arg_to_reg` (svm_util.c): the 16-case switch, default `R_MAX`. -/
def svm_arg_to_reg (arg : Nat) : Nat :=
  if arg = 1 then 0
  else if arg = 2 then 1
  else if arg = 3 then 2
  else if arg = 4 then 3
  else if arg = 5 then 4
  else if arg = 6 then 5
  else if arg = 7 then 6
  else if arg = 8 then 7
  else if arg = 9 then 8
  else if arg = 10 then 9
  else if arg = 11 then 10
  else if arg = 12 then 11
  else if arg = 13 then 12
  else if arg = 14 then 13
  else if arg = 15 then 14
  else if arg = 16 then 15
  else R_MAX

/-- `svm_check_condition`: the switch over the extension byte,
default branch returns `false`. -/
def svm_check_condition (f : SvmFlags) (ext : Nat) : Bool :=
  if ext = EXT_NONE then true
  else if ext = EXT_EQ then f.eq
  else if ext = EXT_NE then f.ne
  else if ext = EXT_LT then f.lt
  else if ext = EXT_LE then f.le
  else if ext = EXT_GT then f.gt
  else if ext = EXT_GE then f.ge
  else if ext = EXT_NZ then f.nz
  else if ext = EXT_Z then f.z
  else false

/-- `svm_check_value_set_nz_z_flags`. -/
def svm_check_value_set_nz_z_flags (f : SvmFlags) (value : Int) : SvmFlags :=
  if value ≠ 0 then { f with nz := true } else { f with z := true }

/-- `svm_set_flag_by_ext` (the flag-mutation part; the `int` status the C
function returns is ignored by its only caller, `OP_CLF`). -/
def svm_set_flag_by_ext (f : SvmFlags) (ext : Nat) (value : Bool) : SvmFlags :=
  if ext = EXT_NONE then
    ⟨value, value, value, value, value, value, value, value⟩
  else if ext = EXT_EQ then { f with eq := value }
  else if ext = EXT_NE then { f with ne := value }
  else if ext = EXT_LT then { f with lt := value }
  else if ext = EXT_LE then { f with le := value }
  else if ext = EXT_GT then { f with gt := value }
  else if ext = EXT_GE then { f with ge := value }
  else if ext = EXT_NZ then { f with nz := value }
  else if ext = EXT_Z then { f with z := value }
  else f

/-- `svm_get_arg_value`: returns the operand value and the VM state after
the fetch (an `ARG_IMM` operand consumes the next code word by
post-incrementing `pc`; any other non-register byte yields 0). -/
def svm_get_arg_value (vm : svm_t) (ty : Nat) : Int × svm_t :=
  if svm_is_arg_register ty then
    let reg := svm_arg_to_reg ty
    (if reg < R_MAX then vm.task.registers.getD reg 0 else 0, vm)
  else if ty = ARG_IMM then
    (vm.code.getD vm.task.pc 0,
      { vm with task := { vm.task with pc := vm.task.pc + 1 } })
  else
    (0, vm)

/-! ## Opcode handlers (the cases of the switch in `svm_cycle`) -/

/-- Common shape of `OP_MOV` and the ALU cases `OP_ADD` … `OP_SHR`:
fetch arg2, test the predicate, require arg1 to be a register, store
`f old arg2` into it and update the NZ/Z flags. -/
def svm_op_alu (f : Int → Int → Int) (vm0 : svm_t) (i : svm_instruction_t) :
    svm_error_t × svm_t :=
  let arg2 := (svm_get_arg_value vm0 i.arg2).1
  let vm := (svm_get_arg_value vm0 i.arg2).2
  if !svm_check_condition vm.task.flags i.ext then (SVM_OK, vm)
  else
    let reg := svm_arg_to_reg i.arg1
    if !decide (reg < R_MAX) then (SVM_ERR_ARG_NOT_REG, vm)
    else
      let registers := vm.task.registers.set reg (f (vm.task.registers.getD reg 0) arg2)
      let value := registers.getD reg 0
      (SVM_OK, { vm with task := { vm.task with
          registers := registers,
          flags := svm_check_value_set_nz_z_flags vm.task.flags value } })

/-- The `for (r = from; r <= to; r++)` loop of the `OP_PUSH` range case,
with the iteration count `to + 1 - from` made explicit. -/
def svm_push_loop : Nat → Nat → Nat → List Int → List Int → List Int × Nat
  | 0, _, sp, _, stack => (stack, sp)
  | n + 1, r, sp, regs, stack =>
      svm_push_loop n (r + 1) (sp + 1) regs (stack.set sp (regs.getD r 0))

/-- The `for (r = to; r >= from; r--)` loop of the `OP_POP` range case
(`registers[r] = stack.buffer[--sp]`), again with explicit count. -/
def svm_pop_loop : Nat → Nat → Nat → List Int → List Int → List Int × Nat
  | 0, _, sp, regs, _ => (regs, sp)
  | n + 1, r, sp, regs, stack =>
      svm_pop_loop n (r - 1) (sp - 1) (regs.set r (stack.getD (sp - 1) 0)) stack

/-- `OP_PUSH`. -/
def svm_op_push (vm0 : svm_t) (i : svm_instruction_t) : svm_error_t × svm_t :=
  -- If arg1 is immediate, load its value from the code buffer
  let arg1 := if i.arg1 = ARG_IMM then (svm_get_arg_value vm0 i.arg1).1 else 0
  let vm := if i.arg1 = ARG_IMM then (svm_get_arg_value vm0 i.arg1).2 else vm0
  if !svm_check_condition vm.task.flags i.ext then (SVM_OK, vm)
  else if i.arg1 = ARG_IMM then
    if vm.task.sp + 1 ≥ vm.task.stack.length then (SVM_ERR_STK_OVERFLOW, vm)
    else (SVM_OK, { vm with task := { vm.task with
      stack := vm.task.stack.set vm.task.sp arg1, sp := vm.task.sp + 1 } })
  else if i.arg2 = ARG_NONE then
    -- single register; the C code reads registers[reg] without a bound check
    let reg := svm_arg_to_reg i.arg1
    if vm.task.sp + 1 ≥ vm.task.stack.length then (SVM_ERR_STK_OVERFLOW, vm)
    else (SVM_OK, { vm with task := { vm.task with
      stack := vm.task.stack.set vm.task.sp (vm.task.registers.getD reg 0),
      sp := vm.task.sp + 1 } })
  else
    let lo := svm_arg_to_reg i.arg1
    let hi := svm_arg_to_reg i.arg2
    if !decide (lo < hi) then (SVM_ERR_PUSH_ARG_BAD_ORDER, vm)
    else if vm.task.sp + hi - lo ≥ vm.task.stack.length then (SVM_ERR_STK_OVERFLOW, vm)
    else
      let res := svm_push_loop (hi + 1 - lo) lo vm.task.sp vm.task.registers vm.task.stack
      (SVM_OK, { vm with task := { vm.task with stack := res.1, sp := res.2 } })

/-- `OP_POP`.  Note the single-register case reads `stack.buffer[sp--]`
(the value *at* `sp`, then decrement), exactly as the C source does. -/
def svm_op_pop (vm : svm_t) (i : svm_instruction_t) : svm_error_t × svm_t :=
  if !svm_check_condition vm.task.flags i.ext then (SVM_OK, vm)
  else if svm_is_arg_register i.arg1 && decide (i.arg2 = ARG_NONE) then
    if vm.task.sp < 1 then (SVM_ERR_STK_UNDERFLOW, vm)
    else
      let reg := svm_arg_to_reg i.arg1
      (SVM_OK, { vm with task := { vm.task with
        registers := vm.task.registers.set reg (vm.task.stack.getD vm.task.sp 0),
        sp := vm.task.sp - 1 } })
  else if !svm_is_arg_register i.arg1 then (SVM_ERR_ARG_NOT_REG, vm)
  else if !svm_is_arg_register i.arg2 then (SVM_ERR_ARG_NOT_REG, vm)
  else
    let lo := svm_arg_to_reg i.arg1
    let hi := svm_arg_to_reg i.arg2
    if !decide (lo < hi) then (SVM_ERR_PUSH_ARG_BAD_ORDER, vm)
    else if vm.task.sp < hi - lo then (SVM_ERR_STK_UNDERFLOW, vm)
    else
      let res := svm_pop_loop (hi + 1 - lo) hi vm.task.sp vm.task.registers vm.task.stack
      (SVM_OK, { vm with task := { vm.task with registers := res.1, sp := res.2 } })

/-- `OP_CMP`: each comparison that holds sets its flag; no flag is cleared. -/
def svm_op_cmp (vm0 : svm_t) (i : svm_instruction_t) : svm_error_t × svm_t :=
  let a1 := (svm_get_arg_value vm0 i.arg1).1
  let vm1 := (svm_get_arg_value vm0 i.arg1).2
  let a2 := (svm_get_arg_value vm1 i.arg2).1
  let vm := (svm_get_arg_value vm1 i.arg2).2
  let f0 := vm.task.flags
  let f1 := if a1 = a2 then { f0 with eq := true } else f0
  let f2 := if a1 ≠ a2 then { f1 with ne := true } else f1
  let f3 := if a1 > a2 then { f2 with gt := true } else f2
  let f4 := if a1 ≥ a2 then { f3 with ge := true } else f3
  let f5 := if a1 < a2 then { f4 with lt := true } else f4
  let f6 := if a1 ≤ a2 then { f5 with le := true } else f5
  (SVM_OK, { vm with task := { vm.task with flags := f6 } })

/-- `OP_CLF`. -/
def svm_op_clf (vm : svm_t) (i : svm_instruction_t) : svm_error_t × svm_t :=
  (SVM_OK, { vm with task := { vm.task with
    flags := svm_set_flag_by_ext vm.task.flags i.ext false } })

/-- `OP_JMP`.  The C comparison `arg1 < vm->code->size` converts the signed
operand to `uint32_t`. -/
def svm_op_jmp (vm0 : svm_t) (i : svm_instruction_t) : svm_error_t × svm_t :=
  let arg1 := (svm_get_arg_value vm0 i.arg1).1
  let vm := (svm_get_arg_value vm0 i.arg1).2
  if !svm_check_condition vm.task.flags i.ext then (SVM_OK, vm)
  else if to_uint32 arg1 < vm.code.length then
    (SVM_OK, { vm with task := { vm.task with pc := to_uint32 arg1 } })
  else (SVM_ERR_JMP_OVERFLOW, vm)

/-- `OP_INV`: the return address is pushed *before* the jump-target bound
check, exactly as in the source. -/
def svm_op_inv (vm0 : svm_t) (i : svm_instruction_t) : svm_error_t × svm_t :=
  let arg1 := (svm_get_arg_value vm0 i.arg1).1
  let vm := (svm_get_arg_value vm0 i.arg1).2
  if !svm_check_condition vm.task.flags i.ext then (SVM_OK, vm)
  else if vm.task.rpc + 1 ≥ vm.task.call_stack.length then (SVM_ERR_CALL_STK_OVERFLOW, vm)
  else
    let vm2 : svm_t := { vm with task := { vm.task with
      call_stack := vm.task.call_stack.set vm.task.rpc (vm.task.pc : Int),
      rpc := vm.task.rpc + 1 } }
    if to_uint32 arg1 < vm2.code.length then
      (SVM_OK, { vm2 with task := { vm2.task with pc := to_uint32 arg1 } })
    else (SVM_ERR_JMP_OVERFLOW, vm2)

/-- `OP_RET`. -/
def svm_op_ret (vm : svm_t) : svm_error_t × svm_t :=
  if vm.task.rpc > 0 then
    (SVM_OK, { vm with task := { vm.task with
      pc := to_uint32 (vm.task.call_stack.getD (vm.task.rpc - 1) 0),
      rpc := vm.task.rpc - 1 } })
  else (SVM_ERR_CALL_STK_UNDERFLOW, vm)

/-- `OP_SYS`: the handler (`svm_sys_handler`, a weak symbol the host may
override) receives the syscall number and may mutate the register file —
its sole return channel.  It is therefore a parameter here. -/
def svm_op_sys (sys : Int → List Int → List Int) (vm0 : svm_t)
    (i : svm_instruction_t) : svm_error_t × svm_t :=
  let num := (svm_get_arg_value vm0 i.arg1).1
  let vm := (svm_get_arg_value vm0 i.arg1).2
  (SVM_OK, { vm with task := { vm.task with
    registers := sys num vm.task.registers } })

/-- The default (weak) `svm_sys_handler`: does nothing. -/
def svm_sys_handler_default : Int → List Int → List Int := fun _ regs => regs

/-- The switch over the opcode byte in `svm_cycle`; `vm` is the state after
the instruction-word fetch (`pc` already incremented). -/
def svm_execute (sys : Int → List Int → List Int) (vm : svm_t)
    (i : svm_instruction_t) : svm_error_t × svm_t :=
  if i.op = OP_NOP then (SVM_OK, vm)
  else if i.op = OP_END then (SVM_OK, { vm with running := false })
  else if i.op = OP_MOV then svm_op_alu (fun _ arg2 => arg2) vm i
  else if i.op = OP_PUSH then svm_op_push vm i
  else if i.op = OP_POP then svm_op_pop vm i
  else if i.op = OP_ADD then svm_op_alu (fun a arg2 => wrap32 (a + arg2)) vm i
  else if i.op = OP_SUB then svm_op_alu (fun a arg2 => wrap32 (a - arg2)) vm i
  else if i.op = OP_MUL then svm_op_alu (fun a arg2 => wrap32 (a * arg2)) vm i
  else if i.op = OP_DIV then svm_op_alu (fun a arg2 => Int.tdiv a arg2) vm i
  else if i.op = OP_AND then svm_op_alu (fun a arg2 => wrap32 (Int.land a arg2)) vm i
  else if i.op = OP_OR then svm_op_alu (fun a arg2 => wrap32 (Int.lor a arg2)) vm i
  else if i.op = OP_XOR then svm_op_alu (fun a arg2 => wrap32 (Int.xor a arg2)) vm i
  else if i.op = OP_SHL then
    svm_op_alu (fun a arg2 => wrap32 (a * 2 ^ (to_uint32 arg2))) vm i
  else if i.op = OP_SHR then
    svm_op_alu (fun a arg2 => wrap32 (Int.fdiv a (2 ^ (to_uint32 arg2)))) vm i
  else if i.op = OP_CMP then svm_op_cmp vm i
  else if i.op = OP_CLF then svm_op_clf vm i
  else if i.op = OP_JMP then svm_op_jmp vm i
  else if i.op = OP_INV then svm_op_inv vm i
  else if i.op = OP_RET then svm_op_ret vm
  else if i.op = OP_SYS then svm_op_sys sys vm i
  else (SVM_ERR_UNKNOWN_INSTRUCTION, vm)

/-- `svm_cycle` (svm.c, task-based variant): run the current task for one
instruction. -/
def svm_cycle (sys : Int → List Int → List Int) (vm : svm_t) :
    svm_error_t × svm_t :=
  if !vm.running then (SVM_ERR_NOT_RUNNING, vm)
  else if vm.task.pc ≥ vm.code.length then
    (SVM_ERR_CODE_OVERFLOW, { vm with running := false })
  else
    let i := svm_decode_instruction (vm.code.getD vm.task.pc 0)
    svm_execute sys { vm with task := { vm.task with pc := vm.task.pc + 1 } } i

/-! ## Task list removal (svm_task_remove, svm.c)

The task ring is modelled as the list of task identities reachable from
`vm->task.head`; pointer equality between distinct live tasks is identity
of list elements (a `Nodup` hypothesis states that no task node appears
twice).  `next_of l t` is the node `t->next` points to. -/

/-- The successor of `t` in the list rooted at the head (`t->next`). -/
def next_of : List Nat → Nat → Option Nat
  | [], _ => none
  | a :: rest, t => if a = t then rest.head? else next_of rest t

/-- The search loop of `svm_task_remove`:
`while (tmp) { if (task->next == task) break; tmp = tmp->next; }`.
The guard `task->next == task` does not depend on `tmp`, so it is passed
in as the constant `found`.  Returns whether the loop exited via `break`
(i.e. with `tmp` non-NULL). -/
def svm_task_remove_loop (found : Bool) : List Nat → Bool
  | [] => false
  | _ :: rest => if found then true else svm_task_remove_loop found rest

/-- `svm_task_remove`, modelled on the task-identity list.  An empty list
would dereference NULL in the C source (`vm->task.head->next`); that case
is mapped to `SVM_ERR_NULL` and is unreachable under the theorems'
hypotheses.  The `break` branch of the loop (guard `task->next == task`)
writes `tmp->next = task->next`; a self-successor is not expressible in
the list model, and the branch is provably unreachable for `Nodup` lists,
so the state is returned unchanged there. -/
def svm_task_remove (l : List Nat) (t : Nat) : svm_error_t × List Nat :=
  match l with
  | [] => (SVM_ERR_NULL, [])
  | h :: rest =>
    if h = t then (SVM_OK, rest)
    else if svm_task_remove_loop (next_of (h :: rest) t == some t) rest then
      (SVM_OK, h :: rest)
    else (SVM_ERR_TASK_NOT_FOUND, h :: rest)

/-! ## Numeric literal parsing (svm_to_int32, svm_util.c) -/

/-- The digit-accumulation loop of `svm_to_int32`, transcribed with its
exact range tests: `'0' <= c && c < '9'` (strict!), `'a' <= c && c <= 'f'`
with `digit = c - 'a'`, `'A' <= c && c <= 'F'` with `digit = c - 'A'`
(the `isupper` test inside that branch always holds). -/
def svm_to_int32_loop : List Char → Int → Int → Option Int
  | [], _, value => some value
  | c :: rest, base, value =>
    if '0' ≤ c ∧ c < '9' then
      svm_to_int32_loop rest base (wrap32 (value * base + ((c.toNat : Int) - ('0'.toNat : Int))))
    else if 'a' ≤ c ∧ c ≤ 'f' then
      svm_to_int32_loop rest base (wrap32 (value * base + ((c.toNat : Int) - ('a'.toNat : Int))))
    else if 'A' ≤ c ∧ c ≤ 'F' then
      svm_to_int32_loop rest base (wrap32 (value * base + ((c.toNat : Int) - ('A'.toNat : Int))))
    else none

/-- `svm_to_int32` (svm_util.c): `none` models returning `false`. -/
def svm_to_int32 (str : List Char) : Option Int :=
  if 2 < str.length ∧ str.getD 0 ' ' = '0' ∧ str.getD 1 ' ' = 'x' then
    svm_to_int32_loop (str.drop 2) 16 0
  else if 2 < str.length ∧ str.getD 0 ' ' = '0' ∧ str.getD 1 ' ' = 'b' then
    svm_to_int32_loop (str.drop 2) 2 0
  else
    svm_to_int32_loop str 10 0

/-! ## Tokenizer comment handling (svm_asm.c) -/

/-- The guard of the comment-skipping loops in `svm_asm_next_token` and
`svm_asm`: `**source != '\n' || **source != '\0'`. -/
def svm_comment_guard (c : Char) : Bool :=
  (c != '\n') || (c != (Char.ofNat 0))

/-- The comment-skipping loop, walking the remaining buffer contents
(the NUL terminator included) while the guard holds.  Returns the suffix
at which the loop stops; reaching `[]` means the loop ran off the end of
the buffer (in C it keeps reading past it). -/
def svm_asm_skip_comment : List Char → List Char
  | [] => []
  | c :: rest => if svm_comment_guard c then svm_asm_skip_comment rest else c :: rest

/-! ## Basic lemmas about the embedding -/

theorem svm_decode_pack (op ext a1 a2 : Nat) (h1 : op < 256) (h2 : ext < 256)
    (h3 : a1 < 256) (h4 : a2 < 256) :
    svm_decode_instruction (svm_instruction_to_int32 (svm_pack_instruction op ext a1 a2)) =
      svm_pack_instruction op ext a1 a2 := by
  unfold svm_instruction_to_int32 svm_pack_instruction svm_decode_instruction
  simp only [svm_instruction_t.mk.injEq]
  have e : ∀ n : Nat, ((n : Int) % 4294967296).toNat = n % 4294967296 := by
    intro n; omega
  rw [e]
  refine ⟨?_, ?_, ?_, ?_⟩ <;> omega

/-- The state component of an operand fetch: only an `ARG_IMM` operand
changes the state, by consuming one code word. -/
theorem svm_get_arg_value_snd (vm : svm_t) (ty : Nat) :
    (svm_get_arg_value vm ty).2 =
      if ty = ARG_IMM then { vm with task := { vm.task with pc := vm.task.pc + 1 } }
      else vm := by
  unfold svm_get_arg_value
  by_cases h2 : ty = ARG_IMM
  · subst h2
    simp [svm_is_arg_register, ARG_NONE, ARG_IMM]
  · by_cases h1 : svm_is_arg_register ty <;> simp [h1, h2]

/-! ## Concrete states used by counterexamples and failing-input theorems -/

/-- All eight condition flags clear. -/
def flags_clear : SvmFlags := ⟨false, false, false, false, false, false, false, false⟩

/-- A task with `pc = 0`, empty-ish registers and given stacks. -/
def task0 (regs stack cs : List Int) (sp : Nat) : svm_task_t :=
  ⟨flags_clear, 0, 0, sp, regs, stack, cs⟩

/-- Running VM for the C1 counterexample: `END.EQ` with the EQ flag clear. -/
def vm_end_eq : svm_t :=
  ⟨true, task0 (List.replicate 16 0) (List.replicate 4 0) (List.replicate 8 0) 0,
    [svm_instruction_to_int32 (svm_pack_instruction OP_END EXT_EQ 0 0)]⟩

/-- Running VM for the C2 counterexample: `INV 5` in a 2-word image. -/
def vm_inv_oob : svm_t :=
  ⟨true, task0 (List.replicate 16 0) (List.replicate 4 0) (List.replicate 8 0) 0,
    [svm_instruction_to_int32 (svm_pack_instruction OP_INV EXT_NONE ARG_IMM 0), 5]⟩

/-- VM for the C4 failing input: `POP R0` with `sp = 1`, stack `[42, 99]`. -/
def vm_pop_single : svm_t :=
  ⟨true, ⟨flags_clear, 0, 0, 1,
      7 :: List.replicate 15 0, [42, 99, 0, 0], List.replicate 8 0⟩,
    [svm_instruction_to_int32 (svm_pack_instruction OP_POP EXT_NONE 1 ARG_NONE)]⟩

/-- VM for the C6 counterexample: `MOV` with the undefined extension byte 9,
destination `R0` (holding 7) and immediate operand 5. -/
def vm_mov_ext9 : svm_t :=
  ⟨true, ⟨flags_clear, 0, 0, 0,
      7 :: List.replicate 15 0, List.replicate 4 0, List.replicate 8 0⟩,
    [svm_instruction_to_int32 (svm_pack_instruction OP_MOV EXT_MAX 1 ARG_IMM), 5]⟩

/-! ## C1 — counterexample

The claim asserts the predicate-false frame property "for every opcode,
including END and SYS".  `OP_END` never consults the predicate: with
extension `EQ` and the EQ flag clear it still clears the `running` flag. -/

/-- C1 counterexample: on `END.EQ` with EQ false, `svm_cycle` still clears
the VM's running flag, contradicting "no running-flag side effect occurs". -/
theorem C1_end_ignores_predicate :
    svm_check_condition vm_end_eq.task.flags EXT_EQ = false ∧
    vm_end_eq.running = true ∧
    (svm_cycle svm_sys_handler_default vm_end_eq).2.running = false := by
  decide

/-! ## C2 — counterexample

The claim asserts in particular that an out-of-bounds `INV` leaves `rpc`
and the call stack unchanged, but the source pushes the return address
*before* the jump bound check. -/

/-- C2 counterexample: `INV` to an out-of-bounds target returns
`SVM_ERR_JMP_OVERFLOW` with `rpc` already incremented and the return
address written into the call stack. -/
theorem C2_inv_overflow_mutates_call_stack :
    (svm_cycle svm_sys_handler_default vm_inv_oob).1 = SVM_ERR_JMP_OVERFLOW ∧
    vm_inv_oob.task.rpc = 0 ∧
    (svm_cycle svm_sys_handler_default vm_inv_oob).2.task.rpc = 1 ∧
    (svm_cycle svm_sys_handler_default vm_inv_oob).2.task.call_stack.getD 0 0 = 2 ∧
    vm_inv_oob.task.call_stack.getD 0 0 = 0 := by
  decide

/-! ## C4 — failing input

Single-register `POP` in the source reads `stack.buffer[sp--]`: the slot
*at* `sp`, one above the top of the stack (`stack[sp-1]`), before
decrementing.  With `sp = 1` and stack contents `[42, 99]` the popped
value is 99, not the pushed top 42. -/

/-- C4: `POP R0` with `sp = 1` and stack `[42, 99]` loads 99 — the slot
above the top — into `R0`, not the top-of-stack value 42. -/
theorem C4_pop_single_reads_above_top :
    (svm_cycle svm_sys_handler_default vm_pop_single).1 = SVM_OK ∧
    vm_pop_single.task.stack.getD (vm_pop_single.task.sp - 1) 0 = 42 ∧
    (svm_cycle svm_sys_handler_default vm_pop_single).2.task.registers.getD 0 0 = 99 ∧
    (svm_cycle svm_sys_handler_default vm_pop_single).2.task.sp = 0 := by
  decide

/-! ## C6 — counterexample

An undefined extension byte (≥ `EXT_MAX`) does *not* execute with
`EXT_NONE` semantics: `svm_check_condition`'s default branch returns
`false`, so the effect is suppressed. -/

/-- C6 counterexample: `MOV` with extension byte 9 (= `EXT_MAX`) and
immediate 5 leaves `R0` at its old value 7 (and returns `SVM_OK`), so the
instruction's effect is not performed. -/
theorem C6_invalid_ext_suppresses :
    (svm_decode_instruction (vm_mov_ext9.code.getD 0 0)).ext = EXT_MAX ∧
    (svm_cycle svm_sys_handler_default vm_mov_ext9).1 = SVM_OK ∧
    (svm_cycle svm_sys_handler_default vm_mov_ext9).2.task.registers.getD 0 0 = 7 ∧
    vm_mov_ext9.code.getD 1 0 = 5 := by
  decide

/-! ## C7 — failing input

`svm_task_remove`'s search loop tests `task->next == task` instead of
`tmp->next == task`, so a task that is in the list but is not the head is
never found: the function reports `SVM_ERR_TASK_NOT_FOUND` and unlinks
nothing. -/

/-- C7: removing task 2 from the two-task list `[1, 2]` (task 2 is present
but not the head) returns `SVM_ERR_TASK_NOT_FOUND` and leaves the list
unchanged, contradicting the claimed unlink-and-return-OK behaviour. -/
theorem C7_remove_nonhead_fails :
    svm_task_remove [1, 2] 2 = (SVM_ERR_TASK_NOT_FOUND, [1, 2]) := by
  decide

/-! ## C8 — failing inputs

The digit classifier of `svm_to_int32` tests `'0' <= c && c < '9'`
(excluding `'9'`), and the hex branches compute `c - 'a'` / `c - 'A'`
without adding 10.  The base-2 digit set is not restricted to `[0-1]`. -/

/-- C8: `svm_to_int32` rejects the decimal literal "9"; it maps "0xf" to 5
rather than 15; and it accepts "0b2" (digit outside base 2) as 2. -/
theorem C8_to_int32_digit_bugs :
    svm_to_int32 ['9'] = none ∧
    svm_to_int32 ['1', '2'] = some 12 ∧
    svm_to_int32 ['0', 'x', 'f'] = some 5 ∧
    svm_to_int32 ['0', 'b', '2'] = some 2 := by
  decide

/-! ## C9 — the comment-skipping loop never stops

The loop guard `**source != '\n' || **source != '\0'` is a tautology: a
character cannot equal both `'\n'` and `'\0'`, so one of the two disequality
tests always holds.  Consequently the skip loop consumes the whole
remaining buffer — it never resumes tokenization after the newline (in C
it runs past the terminating NUL into undefined behaviour). -/

/-- C9: the comment-skip guard holds for every character, hence the skip
loop never stops inside the buffer — in particular not at a newline — and
consumes everything after a `'#'`. -/
theorem C9_comment_skip_never_stops :
    (∀ c, svm_comment_guard c = true) ∧
    (∀ s, svm_asm_skip_comment s = []) := by
  have hg : ∀ c, svm_comment_guard c = true := by
    intro c
    by_cases h : c = '\n'
    · subst h; decide
    · simp [svm_comment_guard, bne_iff_ne, h]
  refine ⟨hg, ?_⟩
  intro s
  induction s with
  | nil => rfl
  | cons c rest ih => simp [svm_asm_skip_comment, hg c, ih]

/-! ## Dispatch lemmas: `svm_cycle` / `svm_execute` case selection -/

theorem svm_cycle_eq_execute (sys : Int → List Int → List Int) (vm : svm_t)
    (hrun : vm.running = true) (hpc : vm.task.pc < vm.code.length) :
    svm_cycle sys vm =
      svm_execute sys { vm with task := { vm.task with pc := vm.task.pc + 1 } }
        (svm_decode_instruction (vm.code.getD vm.task.pc 0)) := by
  unfold svm_cycle
  rw [hrun]
  simp [Nat.not_le.mpr hpc]

theorem svm_execute_nop (sys vm i) (h : i.op = OP_NOP) :
    svm_execute sys vm i = (SVM_OK, vm) := by
  unfold svm_execute; rw [h]; rfl

theorem svm_execute_end (sys vm i) (h : i.op = OP_END) :
    svm_execute sys vm i = (SVM_OK, { vm with running := false }) := by
  unfold svm_execute; rw [h]; rfl

theorem svm_execute_mov (sys vm i) (h : i.op = OP_MOV) :
    svm_execute sys vm i = svm_op_alu (fun _ arg2 => arg2) vm i := by
  unfold svm_execute; rw [h]; rfl

theorem svm_execute_push (sys vm i) (h : i.op = OP_PUSH) :
    svm_execute sys vm i = svm_op_push vm i := by
  unfold svm_execute; rw [h]; rfl

theorem svm_execute_pop (sys vm i) (h : i.op = OP_POP) :
    svm_execute sys vm i = svm_op_pop vm i := by
  unfold svm_execute; rw [h]; rfl

theorem svm_execute_add (sys vm i) (h : i.op = OP_ADD) :
    svm_execute sys vm i = svm_op_alu (fun a arg2 => wrap32 (a + arg2)) vm i := by
  unfold svm_execute; rw [h]; rfl

theorem svm_execute_sub (sys vm i) (h : i.op = OP_SUB) :
    svm_execute sys vm i = svm_op_alu (fun a arg2 => wrap32 (a - arg2)) vm i := by
  unfold svm_execute; rw [h]; rfl

theorem svm_execute_mul (sys vm i) (h : i.op = OP_MUL) :
    svm_execute sys vm i = svm_op_alu (fun a arg2 => wrap32 (a * arg2)) vm i := by
  unfold svm_execute; rw [h]; rfl

theorem svm_execute_div (sys vm i) (h : i.op = OP_DIV) :
    svm_execute sys vm i = svm_op_alu (fun a arg2 => Int.tdiv a arg2) vm i := by
  unfold svm_execute; rw [h]; rfl

theorem svm_execute_and (sys vm i) (h : i.op = OP_AND) :
    svm_execute sys vm i = svm_op_alu (fun a arg2 => wrap32 (Int.land a arg2)) vm i := by
  unfold svm_execute; rw [h]; rfl

theorem svm_execute_or (sys vm i) (h : i.op = OP_OR) :
    svm_execute sys vm i = svm_op_alu (fun a arg2 => wrap32 (Int.lor a arg2)) vm i := by
  unfold svm_execute; rw [h]; rfl

theorem svm_execute_xor (sys vm i) (h : i.op = OP_XOR) :
    svm_execute sys vm i = svm_op_alu (fun a arg2 => wrap32 (Int.xor a arg2)) vm i := by
  unfold svm_execute; rw [h]; rfl

theorem svm_execute_shl (sys vm i) (h : i.op = OP_SHL) :
    svm_execute sys vm i =
      svm_op_alu (fun a arg2 => wrap32 (a * 2 ^ (to_uint32 arg2))) vm i := by
  unfold svm_execute; rw [h]; rfl

theorem svm_execute_shr (sys vm i) (h : i.op = OP_SHR) :
    svm_execute sys vm i =
      svm_op_alu (fun a arg2 => wrap32 (Int.fdiv a (2 ^ (to_uint32 arg2)))) vm i := by
  unfold svm_execute; rw [h]; rfl

theorem svm_execute_cmp (sys vm i) (h : i.op = OP_CMP) :
    svm_execute sys vm i = svm_op_cmp vm i := by
  unfold svm_execute; rw [h]; rfl

theorem svm_execute_clf (sys vm i) (h : i.op = OP_CLF) :
    svm_execute sys vm i = svm_op_clf vm i := by
  unfold svm_execute; rw [h]; rfl

theorem svm_execute_jmp (sys vm i) (h : i.op = OP_JMP) :
    svm_execute sys vm i = svm_op_jmp vm i := by
  unfold svm_execute; rw [h]; rfl

theorem svm_execute_inv (sys vm i) (h : i.op = OP_INV) :
    svm_execute sys vm i = svm_op_inv vm i := by
  unfold svm_execute; rw [h]; rfl

theorem svm_execute_ret (sys vm i) (h : i.op = OP_RET) :
    svm_execute sys vm i = svm_op_ret vm := by
  unfold svm_execute; rw [h]; rfl

theorem svm_execute_sys (sys vm i) (h : i.op = OP_SYS) :
    svm_execute sys vm i = svm_op_sys sys vm i := by
  unfold svm_execute; rw [h]; rfl

theorem svm_execute_unknown (sys vm i) (h : OP_MAX ≤ i.op) :
    svm_execute sys vm i = (SVM_ERR_UNKNOWN_INSTRUCTION, vm) := by
  have h0 : ¬(i.op = OP_NOP) := by unfold OP_NOP OP_MAX at *; omega
  have h1 : ¬(i.op = OP_END) := by unfold OP_END OP_MAX at *; omega
  have h2 : ¬(i.op = OP_MOV) := by unfold OP_MOV OP_MAX at *; omega
  have h3 : ¬(i.op = OP_PUSH) := by unfold OP_PUSH OP_MAX at *; omega
  have h4 : ¬(i.op = OP_POP) := by unfold OP_POP OP_MAX at *; omega
  have h5 : ¬(i.op = OP_ADD) := by unfold OP_ADD OP_MAX at *; omega
  have h6 : ¬(i.op = OP_SUB) := by unfold OP_SUB OP_MAX at *; omega
  have h7 : ¬(i.op = OP_MUL) := by unfold OP_MUL OP_MAX at *; omega
  have h8 : ¬(i.op = OP_DIV) := by unfold OP_DIV OP_MAX at *; omega
  have h9 : ¬(i.op = OP_AND) := by unfold OP_AND OP_MAX at *; omega
  have h10 : ¬(i.op = OP_OR) := by unfold OP_OR OP_MAX at *; omega
  have h11 : ¬(i.op = OP_XOR) := by unfold OP_XOR OP_MAX at *; omega
  have h12 : ¬(i.op = OP_SHL) := by unfold OP_SHL OP_MAX at *; omega
  have h13 : ¬(i.op = OP_SHR) := by unfold OP_SHR OP_MAX at *; omega
  have h14 : ¬(i.op = OP_CMP) := by unfold OP_CMP OP_MAX at *; omega
  have h15 : ¬(i.op = OP_CLF) := by unfold OP_CLF OP_MAX at *; omega
  have h16 : ¬(i.op = OP_JMP) := by unfold OP_JMP OP_MAX at *; omega
  have h17 : ¬(i.op = OP_INV) := by unfold OP_INV OP_MAX at *; omega
  have h18 : ¬(i.op = OP_RET) := by unfold OP_RET OP_MAX at *; omega
  have h19 : ¬(i.op = OP_SYS) := by unfold OP_SYS OP_MAX at *; omega
  unfold svm_execute
  rw [if_neg h0, if_neg h1, if_neg h2, if_neg h3, if_neg h4, if_neg h5, if_neg h6, if_neg h7, if_neg h8, if_neg h9, if_neg h10, if_neg h11, if_neg h12, if_neg h13, if_neg h14, if_neg h15, if_neg h16, if_neg h17, if_neg h18, if_neg h19]

/-! ## Predicate-false frame lemmas (one per predicated opcode family) -/

theorem svm_op_alu_cond_false (f : Int → Int → Int) (vm : svm_t) (i : svm_instruction_t)
    (hcond : svm_check_condition vm.task.flags i.ext = false) :
    svm_op_alu f vm i =
      (SVM_OK, { vm with task := { vm.task with
          pc := vm.task.pc + (if i.arg2 = ARG_IMM then 1 else 0) } }) := by
  by_cases h : i.arg2 = ARG_IMM <;>
    simp [svm_op_alu, svm_get_arg_value_snd, h, hcond]

theorem svm_op_push_cond_false (vm : svm_t) (i : svm_instruction_t)
    (hcond : svm_check_condition vm.task.flags i.ext = false) :
    svm_op_push vm i =
      (SVM_OK, { vm with task := { vm.task with
          pc := vm.task.pc + (if i.arg1 = ARG_IMM then 1 else 0) } }) := by
  by_cases h : i.arg1 = ARG_IMM <;>
    simp [svm_op_push, svm_get_arg_value_snd, h, hcond]

theorem svm_op_pop_cond_false (vm : svm_t) (i : svm_instruction_t)
    (hcond : svm_check_condition vm.task.flags i.ext = false) :
    svm_op_pop vm i = (SVM_OK, vm) := by
  simp [svm_op_pop, hcond]

theorem svm_op_jmp_cond_false (vm : svm_t) (i : svm_instruction_t)
    (hcond : svm_check_condition vm.task.flags i.ext = false) :
    svm_op_jmp vm i =
      (SVM_OK, { vm with task := { vm.task with
          pc := vm.task.pc + (if i.arg1 = ARG_IMM then 1 else 0) } }) := by
  by_cases h : i.arg1 = ARG_IMM <;>
    simp [svm_op_jmp, svm_get_arg_value_snd, h, hcond]

theorem svm_op_inv_cond_false (vm : svm_t) (i : svm_instruction_t)
    (hcond : svm_check_condition vm.task.flags i.ext = false) :
    svm_op_inv vm i =
      (SVM_OK, { vm with task := { vm.task with
          pc := vm.task.pc + (if i.arg1 = ARG_IMM then 1 else 0) } }) := by
  by_cases h : i.arg1 = ARG_IMM <;>
    simp [svm_op_inv, svm_get_arg_value_snd, h, hcond]

/-- Number of IMM literal words `svm_cycle` consumes for a *predicated*
opcode when its predicate is false: `OP_PUSH`, `OP_JMP`, `OP_INV` fetch
(only) arg1 before the predicate check, `OP_POP` fetches nothing, and
`OP_MOV`/the ALU opcodes fetch (only) arg2. -/
def svm_imm_consumed (op a1 a2 : Nat) : Nat :=
  if op = OP_PUSH ∨ op = OP_JMP ∨ op = OP_INV then (if a1 = ARG_IMM then 1 else 0)
  else if op = OP_POP then 0
  else if a2 = ARG_IMM then 1 else 0

/-- C1 (amended): for the predicated opcodes (`MOV`, `PUSH`, `POP`, the ALU
ops `ADD`…`SHR`, `JMP`, `INV`), when the task flag named by the extension
suffix is false, one `svm_cycle` returns `SVM_OK` and changes nothing but
the program counter, which advances past the instruction word and past the
IMM literal words that the opcode's operand fetch consumes (arg1's for
`PUSH`/`JMP`/`INV`, arg2's for `MOV`/ALU, none for `POP`).  The opcodes
`NOP`, `END`, `CMP`, `CLF`, `RET`, `SYS` do not consult the predicate and
are excluded (see the counterexample). -/
theorem C1_predicated_false_frame (sys : Int → List Int → List Int) (vm : svm_t)
    (op ext a1 a2 : Nat)
    (hrun : vm.running = true) (hpc : vm.task.pc < vm.code.length)
    (hdec : svm_decode_instruction (vm.code.getD vm.task.pc 0) = ⟨op, ext, a1, a2⟩)
    (hop : op ∈ [OP_MOV, OP_PUSH, OP_POP, OP_ADD, OP_SUB, OP_MUL, OP_DIV, OP_AND,
      OP_OR, OP_XOR, OP_SHL, OP_SHR, OP_JMP, OP_INV])
    (hext1 : EXT_NONE < ext) (hext2 : ext < EXT_MAX)
    (hcond : svm_check_condition vm.task.flags ext = false) :
    svm_cycle sys vm = (SVM_OK, { vm with task := { vm.task with
        pc := vm.task.pc + 1 + svm_imm_consumed op a1 a2 } }) := by
  rw [svm_cycle_eq_execute sys vm hrun hpc, hdec]
  have hc1 : svm_check_condition
      ({ vm with task := { vm.task with pc := vm.task.pc + 1 } } : svm_t).task.flags ext = false := hcond
  simp only [List.mem_cons, List.not_mem_nil, or_false] at hop
  rcases hop with rfl | rfl | rfl | rfl | rfl | rfl | rfl | rfl | rfl | rfl | rfl | rfl | rfl | rfl
  · rw [svm_execute_mov _ _ _ rfl, svm_op_alu_cond_false _ _ _ hc1]
    simp [svm_imm_consumed, OP_MOV, OP_PUSH, OP_POP, OP_JMP, OP_INV, Nat.add_assoc]
  · rw [svm_execute_push _ _ _ rfl, svm_op_push_cond_false _ _ hc1]
    simp [svm_imm_consumed, OP_PUSH, Nat.add_assoc]
  · rw [svm_execute_pop _ _ _ rfl, svm_op_pop_cond_false _ _ hc1]
    simp [svm_imm_consumed, OP_POP, OP_PUSH, OP_JMP, OP_INV]
  · rw [svm_execute_add _ _ _ rfl, svm_op_alu_cond_false _ _ _ hc1]
    simp [svm_imm_consumed, OP_ADD, OP_PUSH, OP_POP, OP_JMP, OP_INV, Nat.add_assoc]
  · rw [svm_execute_sub _ _ _ rfl, svm_op_alu_cond_false _ _ _ hc1]
    simp [svm_imm_consumed, OP_SUB, OP_PUSH, OP_POP, OP_JMP, OP_INV, Nat.add_assoc]
  · rw [svm_execute_mul _ _ _ rfl, svm_op_alu_cond_false _ _ _ hc1]
    simp [svm_imm_consumed, OP_MUL, OP_PUSH, OP_POP, OP_JMP, OP_INV, Nat.add_assoc]
  · rw [svm_execute_div _ _ _ rfl, svm_op_alu_cond_false _ _ _ hc1]
    simp [svm_imm_consumed, OP_DIV, OP_PUSH, OP_POP, OP_JMP, OP_INV, Nat.add_assoc]
  · rw [svm_execute_and _ _ _ rfl, svm_op_alu_cond_false _ _ _ hc1]
    simp [svm_imm_consumed, OP_AND, OP_PUSH, OP_POP, OP_JMP, OP_INV, Nat.add_assoc]
  · rw [svm_execute_or _ _ _ rfl, svm_op_alu_cond_false _ _ _ hc1]
    simp [svm_imm_consumed, OP_OR, OP_PUSH, OP_POP, OP_JMP, OP_INV, Nat.add_assoc]
  · rw [svm_execute_xor _ _ _ rfl, svm_op_alu_cond_false _ _ _ hc1]
    simp [svm_imm_consumed, OP_XOR, OP_PUSH, OP_POP, OP_JMP, OP_INV, Nat.add_assoc]
  · rw [svm_execute_shl _ _ _ rfl, svm_op_alu_cond_false _ _ _ hc1]
    simp [svm_imm_consumed, OP_SHL, OP_PUSH, OP_POP, OP_JMP, OP_INV, Nat.add_assoc]
  · rw [svm_execute_shr _ _ _ rfl, svm_op_alu_cond_false _ _ _ hc1]
    simp [svm_imm_consumed, OP_SHR, OP_PUSH, OP_POP, OP_JMP, OP_INV, Nat.add_assoc]
  · rw [svm_execute_jmp _ _ _ rfl, svm_op_jmp_cond_false _ _ hc1]
    simp [svm_imm_consumed, OP_JMP, OP_PUSH, Nat.add_assoc]
  · rw [svm_execute_inv _ _ _ rfl, svm_op_inv_cond_false _ _ hc1]
    simp [svm_imm_consumed, OP_INV, OP_PUSH, OP_JMP, Nat.add_assoc]

/-- Witness input for the amended C1: `MOV.EQ R0, #5` with EQ clear. -/
def vm_mov_eq_imm : svm_t :=
  ⟨true, task0 (List.replicate 16 0) (List.replicate 4 0) (List.replicate 8 0) 0,
    [svm_instruction_to_int32 (svm_pack_instruction OP_MOV EXT_EQ 1 ARG_IMM), 5]⟩

/-- Witness for the amended C1 at the concrete input `vm_mov_eq_imm`:
the suppressed `MOV` consumes its IMM word (pc ends at 2) and changes
nothing else. -/
theorem C1_predicated_false_frame_witness :
    svm_cycle svm_sys_handler_default vm_mov_eq_imm =
      (SVM_OK, { vm_mov_eq_imm with task := { vm_mov_eq_imm.task with
          pc := vm_mov_eq_imm.task.pc + 1 + svm_imm_consumed OP_MOV 1 ARG_IMM } }) :=
  C1_predicated_false_frame svm_sys_handler_default vm_mov_eq_imm OP_MOV EXT_EQ 1 ARG_IMM
    (by decide) (by decide) (by decide) (by decide) (by decide) (by decide) (by decide)

/-! ## Error-path frame lemmas (one per opcode handler) -/

theorem svm_op_alu_err (f : Int → Int → Int) (vm : svm_t) (i : svm_instruction_t)
    (h : (svm_op_alu f vm i).1 ≠ SVM_OK) :
    svm_op_alu f vm i = (SVM_ERR_ARG_NOT_REG, (svm_get_arg_value vm i.arg2).2) := by
  simp only [svm_op_alu] at h ⊢
  split_ifs at h ⊢ <;> simp_all

theorem svm_op_push_err (vm : svm_t) (i : svm_instruction_t)
    (h : (svm_op_push vm i).1 ≠ SVM_OK) :
    (svm_op_push vm i).2 =
      if i.arg1 = ARG_IMM then { vm with task := { vm.task with pc := vm.task.pc + 1 } }
      else vm := by
  simp only [svm_op_push, svm_get_arg_value_snd] at h ⊢
  split_ifs at h ⊢ <;> simp_all

theorem svm_op_pop_err (vm : svm_t) (i : svm_instruction_t)
    (h : (svm_op_pop vm i).1 ≠ SVM_OK) :
    (svm_op_pop vm i).2 = vm := by
  simp only [svm_op_pop] at h ⊢
  split_ifs at h ⊢ <;> simp_all

theorem svm_op_jmp_err (vm : svm_t) (i : svm_instruction_t)
    (h : (svm_op_jmp vm i).1 ≠ SVM_OK) :
    (svm_op_jmp vm i).2 = (svm_get_arg_value vm i.arg1).2 := by
  simp only [svm_op_jmp] at h ⊢
  split_ifs at h ⊢ <;> simp_all

theorem svm_op_ret_err (vm : svm_t)
    (h : (svm_op_ret vm).1 ≠ SVM_OK) :
    (svm_op_ret vm).2 = vm := by
  simp only [svm_op_ret] at h ⊢
  split_ifs at h ⊢ <;> simp_all

theorem svm_op_inv_err (vm : svm_t) (i : svm_instruction_t)
    (h : (svm_op_inv vm i).1 ≠ SVM_OK) :
    (svm_op_inv vm i).2 = (svm_get_arg_value vm i.arg1).2 ∨
    ((svm_op_inv vm i).1 = SVM_ERR_JMP_OVERFLOW ∧
      (svm_op_inv vm i).2 =
        { (svm_get_arg_value vm i.arg1).2 with task :=
          { (svm_get_arg_value vm i.arg1).2.task with
            call_stack := (svm_get_arg_value vm i.arg1).2.task.call_stack.set
              (svm_get_arg_value vm i.arg1).2.task.rpc
              ((svm_get_arg_value vm i.arg1).2.task.pc : Int),
            rpc := (svm_get_arg_value vm i.arg1).2.task.rpc + 1 } }) := by
  simp only [svm_op_inv] at h ⊢
  split_ifs at h ⊢ <;> simp_all

theorem svm_op_cmp_fst (vm : svm_t) (i : svm_instruction_t) :
    (svm_op_cmp vm i).1 = SVM_OK := rfl

theorem svm_op_clf_fst (vm : svm_t) (i : svm_instruction_t) :
    (svm_op_clf vm i).1 = SVM_OK := rfl

theorem svm_op_sys_fst (sys : Int → List Int → List Int) (vm : svm_t)
    (i : svm_instruction_t) :
    (svm_op_sys sys vm i).1 = SVM_OK := rfl

theorem svm_cycle_not_running (sys : Int → List Int → List Int) (vm : svm_t)
    (hrun : vm.running = false) :
    svm_cycle sys vm = (SVM_ERR_NOT_RUNNING, vm) := by
  unfold svm_cycle; rw [hrun]; simp

theorem svm_cycle_code_overflow (sys : Int → List Int → List Int) (vm : svm_t)
    (hrun : vm.running = true) (hpc : ¬ vm.task.pc < vm.code.length) :
    svm_cycle sys vm = (SVM_ERR_CODE_OVERFLOW, { vm with running := false }) := by
  unfold svm_cycle; rw [hrun]; simp [Nat.le_of_not_lt hpc]

/-- C2 (amended): whenever `svm_cycle` returns an error, the task's
registers, flags, data-stack contents and `sp` are unchanged and `pc` has
advanced by at most the instruction word plus one IMM word; `rpc` and the
call stack are also unchanged — except that `INV` failing with
`SVM_ERR_JMP_OVERFLOW` has already pushed the return address: `rpc` is
incremented by one and the slot at the old `rpc` holds the post-operand
`pc` (see the counterexample). -/
theorem C2_structural_error_frame (sys : Int → List Int → List Int) (vm : svm_t)
    (herr : (svm_cycle sys vm).1 ≠ SVM_OK) :
    (svm_cycle sys vm).2.task.registers = vm.task.registers ∧
    (svm_cycle sys vm).2.task.flags = vm.task.flags ∧
    (svm_cycle sys vm).2.task.stack = vm.task.stack ∧
    (svm_cycle sys vm).2.task.sp = vm.task.sp ∧
    ((svm_cycle sys vm).2.task.pc = vm.task.pc ∨
      (svm_cycle sys vm).2.task.pc = vm.task.pc + 1 ∨
      (svm_cycle sys vm).2.task.pc = vm.task.pc + 2) ∧
    (((svm_cycle sys vm).2.task.rpc = vm.task.rpc ∧
        (svm_cycle sys vm).2.task.call_stack = vm.task.call_stack) ∨
      ((svm_cycle sys vm).1 = SVM_ERR_JMP_OVERFLOW ∧
        (svm_decode_instruction (vm.code.getD vm.task.pc 0)).op = OP_INV ∧
        (svm_cycle sys vm).2.task.rpc = vm.task.rpc + 1 ∧
        (svm_cycle sys vm).2.task.call_stack =
          vm.task.call_stack.set vm.task.rpc ((svm_cycle sys vm).2.task.pc : Int))) := by
  by_cases hrun : vm.running = true
  · by_cases hpc : vm.task.pc < vm.code.length
    · rw [svm_cycle_eq_execute sys vm hrun hpc] at herr ⊢
      generalize hi : svm_decode_instruction (vm.code.getD vm.task.pc 0) = i at herr ⊢
      rcases Nat.lt_or_ge i.op OP_MAX with hlt | hge
      · have h20 : i.op < 20 := hlt
        have hcases : i.op = 0 ∨ i.op = 1 ∨ i.op = 2 ∨ i.op = 3 ∨ i.op = 4 ∨
            i.op = 5 ∨ i.op = 6 ∨ i.op = 7 ∨ i.op = 8 ∨ i.op = 9 ∨ i.op = 10 ∨
            i.op = 11 ∨ i.op = 12 ∨ i.op = 13 ∨ i.op = 14 ∨ i.op = 15 ∨
            i.op = 16 ∨ i.op = 17 ∨ i.op = 18 ∨ i.op = 19 := by omega
        rcases hcases with h | h | h | h | h | h | h | h | h | h | h | h | h | h |
          h | h | h | h | h | h
        · rw [svm_execute_nop _ _ _ h] at herr; exact absurd rfl herr
        · rw [svm_execute_end _ _ _ h] at herr; exact absurd rfl herr
        · rw [svm_execute_mov _ _ _ h] at herr ⊢
          rw [svm_op_alu_err _ _ _ herr, svm_get_arg_value_snd]
          by_cases ha : i.arg2 = ARG_IMM
          · rw [if_pos ha]
            refine ⟨rfl, rfl, rfl, rfl, ?_, Or.inl ⟨rfl, rfl⟩⟩
            dsimp only; omega
          · rw [if_neg ha]
            exact ⟨rfl, rfl, rfl, rfl, Or.inr (Or.inl rfl), Or.inl ⟨rfl, rfl⟩⟩
        · rw [svm_execute_push _ _ _ h] at herr ⊢
          rw [svm_op_push_err _ _ herr]
          by_cases ha : i.arg1 = ARG_IMM
          · rw [if_pos ha]
            refine ⟨rfl, rfl, rfl, rfl, ?_, Or.inl ⟨rfl, rfl⟩⟩
            dsimp only; omega
          · rw [if_neg ha]
            exact ⟨rfl, rfl, rfl, rfl, Or.inr (Or.inl rfl), Or.inl ⟨rfl, rfl⟩⟩
        · rw [svm_execute_pop _ _ _ h] at herr ⊢
          rw [svm_op_pop_err _ _ herr]
          exact ⟨rfl, rfl, rfl, rfl, Or.inr (Or.inl rfl), Or.inl ⟨rfl, rfl⟩⟩
        · rw [svm_execute_add _ _ _ h] at herr ⊢
          rw [svm_op_alu_err _ _ _ herr, svm_get_arg_value_snd]
          by_cases ha : i.arg2 = ARG_IMM
          · rw [if_pos ha]
            refine ⟨rfl, rfl, rfl, rfl, ?_, Or.inl ⟨rfl, rfl⟩⟩
            dsimp only; omega
          · rw [if_neg ha]
            exact ⟨rfl, rfl, rfl, rfl, Or.inr (Or.inl rfl), Or.inl ⟨rfl, rfl⟩⟩
        · rw [svm_execute_sub _ _ _ h] at herr ⊢
          rw [svm_op_alu_err _ _ _ herr, svm_get_arg_value_snd]
          by_cases ha : i.arg2 = ARG_IMM
          · rw [if_pos ha]
            refine ⟨rfl, rfl, rfl, rfl, ?_, Or.inl ⟨rfl, rfl⟩⟩
            dsimp only; omega
          · rw [if_neg ha]
            exact ⟨rfl, rfl, rfl, rfl, Or.inr (Or.inl rfl), Or.inl ⟨rfl, rfl⟩⟩
        · rw [svm_execute_mul _ _ _ h] at herr ⊢
          rw [svm_op_alu_err _ _ _ herr, svm_get_arg_value_snd]
          by_cases ha : i.arg2 = ARG_IMM
          · rw [if_pos ha]
            refine ⟨rfl, rfl, rfl, rfl, ?_, Or.inl ⟨rfl, rfl⟩⟩
            dsimp only; omega
          · rw [if_neg ha]
            exact ⟨rfl, rfl, rfl, rfl, Or.inr (Or.inl rfl), Or.inl ⟨rfl, rfl⟩⟩
        · rw [svm_execute_div _ _ _ h] at herr ⊢
          rw [svm_op_alu_err _ _ _ herr, svm_get_arg_value_snd]
          by_cases ha : i.arg2 = ARG_IMM
          · rw [if_pos ha]
            refine ⟨rfl, rfl, rfl, rfl, ?_, Or.inl ⟨rfl, rfl⟩⟩
            dsimp only; omega
          · rw [if_neg ha]
            exact ⟨rfl, rfl, rfl, rfl, Or.inr (Or.inl rfl), Or.inl ⟨rfl, rfl⟩⟩
        · rw [svm_execute_and _ _ _ h] at herr ⊢
          rw [svm_op_alu_err _ _ _ herr, svm_get_arg_value_snd]
          by_cases ha : i.arg2 = ARG_IMM
          · rw [if_pos ha]
            refine ⟨rfl, rfl, rfl, rfl, ?_, Or.inl ⟨rfl, rfl⟩⟩
            dsimp only; omega
          · rw [if_neg ha]
            exact ⟨rfl, rfl, rfl, rfl, Or.inr (Or.inl rfl), Or.inl ⟨rfl, rfl⟩⟩
        · rw [svm_execute_or _ _ _ h] at herr ⊢
          rw [svm_op_alu_err _ _ _ herr, svm_get_arg_value_snd]
          by_cases ha : i.arg2 = ARG_IMM
          · rw [if_pos ha]
            refine ⟨rfl, rfl, rfl, rfl, ?_, Or.inl ⟨rfl, rfl⟩⟩
            dsimp only; omega
          · rw [if_neg ha]
            exact ⟨rfl, rfl, rfl, rfl, Or.inr (Or.inl rfl), Or.inl ⟨rfl, rfl⟩⟩
        · rw [svm_execute_xor _ _ _ h] at herr ⊢
          rw [svm_op_alu_err _ _ _ herr, svm_get_arg_value_snd]
          by_cases ha : i.arg2 = ARG_IMM
          · rw [if_pos ha]
            refine ⟨rfl, rfl, rfl, rfl, ?_, Or.inl ⟨rfl, rfl⟩⟩
            dsimp only; omega
          · rw [if_neg ha]
            exact ⟨rfl, rfl, rfl, rfl, Or.inr (Or.inl rfl), Or.inl ⟨rfl, rfl⟩⟩
        · rw [svm_execute_shl _ _ _ h] at herr ⊢
          rw [svm_op_alu_err _ _ _ herr, svm_get_arg_value_snd]
          by_cases ha : i.arg2 = ARG_IMM
          · rw [if_pos ha]
            refine ⟨rfl, rfl, rfl, rfl, ?_, Or.inl ⟨rfl, rfl⟩⟩
            dsimp only; omega
          · rw [if_neg ha]
            exact ⟨rfl, rfl, rfl, rfl, Or.inr (Or.inl rfl), Or.inl ⟨rfl, rfl⟩⟩
        · rw [svm_execute_shr _ _ _ h] at herr ⊢
          rw [svm_op_alu_err _ _ _ herr, svm_get_arg_value_snd]
          by_cases ha : i.arg2 = ARG_IMM
          · rw [if_pos ha]
            refine ⟨rfl, rfl, rfl, rfl, ?_, Or.inl ⟨rfl, rfl⟩⟩
            dsimp only; omega
          · rw [if_neg ha]
            exact ⟨rfl, rfl, rfl, rfl, Or.inr (Or.inl rfl), Or.inl ⟨rfl, rfl⟩⟩
        · rw [svm_execute_cmp _ _ _ h] at herr
          exact absurd (svm_op_cmp_fst _ _) herr
        · rw [svm_execute_clf _ _ _ h] at herr
          exact absurd (svm_op_clf_fst _ _) herr
        · rw [svm_execute_jmp _ _ _ h] at herr ⊢
          rw [svm_op_jmp_err _ _ herr, svm_get_arg_value_snd]
          by_cases ha : i.arg1 = ARG_IMM
          · rw [if_pos ha]
            refine ⟨rfl, rfl, rfl, rfl, ?_, Or.inl ⟨rfl, rfl⟩⟩
            dsimp only; omega
          · rw [if_neg ha]
            exact ⟨rfl, rfl, rfl, rfl, Or.inr (Or.inl rfl), Or.inl ⟨rfl, rfl⟩⟩
        · rw [svm_execute_inv _ _ _ h] at herr ⊢
          rcases svm_op_inv_err _ _ herr with e | ⟨hjo, e⟩
          · rw [e, svm_get_arg_value_snd]
            by_cases ha : i.arg1 = ARG_IMM
            · rw [if_pos ha]
              refine ⟨rfl, rfl, rfl, rfl, ?_, Or.inl ⟨rfl, rfl⟩⟩
              dsimp only; omega
            · rw [if_neg ha]
              exact ⟨rfl, rfl, rfl, rfl, Or.inr (Or.inl rfl), Or.inl ⟨rfl, rfl⟩⟩
          · rw [e, svm_get_arg_value_snd]
            by_cases ha : i.arg1 = ARG_IMM
            · rw [if_pos ha]
              refine ⟨rfl, rfl, rfl, rfl, ?_, Or.inr ⟨hjo, h, rfl, rfl⟩⟩
              dsimp only; omega
            · rw [if_neg ha]
              exact ⟨rfl, rfl, rfl, rfl, Or.inr (Or.inl rfl),
                Or.inr ⟨hjo, h, rfl, rfl⟩⟩
        · rw [svm_execute_ret _ _ _ h] at herr ⊢
          rw [svm_op_ret_err _ herr]
          exact ⟨rfl, rfl, rfl, rfl, Or.inr (Or.inl rfl), Or.inl ⟨rfl, rfl⟩⟩
        · rw [svm_execute_sys _ _ _ h] at herr
          exact absurd (svm_op_sys_fst _ _ _) herr
      · rw [svm_execute_unknown _ _ _ hge] at herr ⊢
        exact ⟨rfl, rfl, rfl, rfl, Or.inr (Or.inl rfl), Or.inl ⟨rfl, rfl⟩⟩
    · rw [svm_cycle_code_overflow sys vm hrun hpc] at herr ⊢
      exact ⟨rfl, rfl, rfl, rfl, Or.inl rfl, Or.inl ⟨rfl, rfl⟩⟩
  · have hr : vm.running = false := by revert hrun; cases vm.running <;> simp
    rw [svm_cycle_not_running sys vm hr] at herr ⊢
    exact ⟨rfl, rfl, rfl, rfl, Or.inl rfl, Or.inl ⟨rfl, rfl⟩⟩

/-- Witness for the amended C2 at a concrete erroring input: the
out-of-bounds `INV` of `vm_inv_oob`. -/
theorem C2_structural_error_frame_witness :
    (svm_cycle svm_sys_handler_default vm_inv_oob).2.task.registers = vm_inv_oob.task.registers ∧
    (svm_cycle svm_sys_handler_default vm_inv_oob).2.task.flags = vm_inv_oob.task.flags ∧
    (svm_cycle svm_sys_handler_default vm_inv_oob).2.task.stack = vm_inv_oob.task.stack ∧
    (svm_cycle svm_sys_handler_default vm_inv_oob).2.task.sp = vm_inv_oob.task.sp ∧
    ((svm_cycle svm_sys_handler_default vm_inv_oob).2.task.pc = vm_inv_oob.task.pc ∨
      (svm_cycle svm_sys_handler_default vm_inv_oob).2.task.pc = vm_inv_oob.task.pc + 1 ∨
      (svm_cycle svm_sys_handler_default vm_inv_oob).2.task.pc = vm_inv_oob.task.pc + 2) ∧
    (((svm_cycle svm_sys_handler_default vm_inv_oob).2.task.rpc = vm_inv_oob.task.rpc ∧
        (svm_cycle svm_sys_handler_default vm_inv_oob).2.task.call_stack = vm_inv_oob.task.call_stack) ∨
      ((svm_cycle svm_sys_handler_default vm_inv_oob).1 = SVM_ERR_JMP_OVERFLOW ∧
        (svm_decode_instruction (vm_inv_oob.code.getD vm_inv_oob.task.pc 0)).op = OP_INV ∧
        (svm_cycle svm_sys_handler_default vm_inv_oob).2.task.rpc = vm_inv_oob.task.rpc + 1 ∧
        (svm_cycle svm_sys_handler_default vm_inv_oob).2.task.call_stack =
          vm_inv_oob.task.call_stack.set vm_inv_oob.task.rpc
            (((svm_cycle svm_sys_handler_default vm_inv_oob).2.task.pc : Int)))) :=
  C2_structural_error_frame svm_sys_handler_default vm_inv_oob (by decide)

/-! ## Operand fetch on register and invalid argument bytes -/

theorem svm_arg_to_reg_lt (ty : Nat) (h : svm_is_arg_register ty = true) :
    svm_arg_to_reg ty < R_MAX := by
  simp only [svm_is_arg_register, ARG_NONE, ARG_IMM, Bool.and_eq_true, decide_eq_true_eq] at h
  obtain ⟨h1, h2⟩ := h
  interval_cases ty <;> decide

theorem svm_get_arg_value_reg (vm : svm_t) (ty : Nat) (h : svm_is_arg_register ty = true) :
    svm_get_arg_value vm ty = (vm.task.registers.getD (svm_arg_to_reg ty) 0, vm) := by
  unfold svm_get_arg_value
  simp [h, svm_arg_to_reg_lt ty h]

/-- C6 (amended): an undefined opcode byte (`≥ OP_MAX`) is reported as
`SVM_ERR_UNKNOWN_INSTRUCTION` with only the instruction-word pc advance;
an undefined extension byte (`≥ EXT_MAX`) makes `svm_check_condition`
return `false` — i.e. the predicate is treated as unsatisfied and the
instruction's effect is suppressed, not executed with `NONE` semantics
(see the counterexample). -/
theorem C6_unknown_op_and_invalid_ext :
    (∀ (sys : Int → List Int → List Int) (vm : svm_t) (op ext a1 a2 : Nat),
      vm.running = true → vm.task.pc < vm.code.length →
      svm_decode_instruction (vm.code.getD vm.task.pc 0) = ⟨op, ext, a1, a2⟩ →
      OP_MAX ≤ op →
      svm_cycle sys vm = (SVM_ERR_UNKNOWN_INSTRUCTION,
        { vm with task := { vm.task with pc := vm.task.pc + 1 } })) ∧
    (∀ (f : SvmFlags) (ext : Nat), EXT_MAX ≤ ext → svm_check_condition f ext = false) := by
  constructor
  · intro sys vm op ext a1 a2 hrun hpc hdec hop
    rw [svm_cycle_eq_execute sys vm hrun hpc, hdec, svm_execute_unknown _ _ _ hop]
  · intro f ext h
    unfold svm_check_condition
    unfold EXT_NONE EXT_EQ EXT_NE EXT_LT EXT_LE EXT_GT EXT_GE EXT_NZ EXT_Z
    unfold EXT_MAX at h
    split_ifs <;> first | rfl | omega

/-- Concrete image whose single instruction word carries opcode byte 99. -/
def vm_op99 : svm_t :=
  ⟨true, task0 (List.replicate 16 0) (List.replicate 4 0) (List.replicate 8 0) 0,
    [svm_instruction_to_int32 (svm_pack_instruction 99 0 0 0)]⟩

/-- Witness for the amended C6 at concrete inputs: opcode byte 99 yields
`SVM_ERR_UNKNOWN_INSTRUCTION`, and extension byte 9 evaluates to a false
predicate. -/
theorem C6_unknown_op_and_invalid_ext_witness :
    svm_cycle svm_sys_handler_default vm_op99 = (SVM_ERR_UNKNOWN_INSTRUCTION,
      { vm_op99 with task := { vm_op99.task with pc := vm_op99.task.pc + 1 } }) ∧
    svm_check_condition flags_clear 9 = false :=
  ⟨C6_unknown_op_and_invalid_ext.1 svm_sys_handler_default vm_op99 99 0 0 0
      (by decide) (by decide) (by decide) (by decide),
    C6_unknown_op_and_invalid_ext.2 flags_clear 9 (by decide)⟩

/-- C10: an argument byte that is neither a register symbol nor `IMM`
(this includes `ARG_NONE`) yields operand value 0 without advancing `pc`;
consequently `CMP` with both argument bytes `NONE` compares 0 with 0 and
sets exactly the EQ, GE and LE flags (the others are left as they were). -/
theorem C10_none_arg_zero_and_cmp :
    (∀ (vm : svm_t) (ty : Nat), svm_is_arg_register ty = false → ty ≠ ARG_IMM →
      svm_get_arg_value vm ty = (0, vm)) ∧
    (∀ (sys : Int → List Int → List Int) (vm : svm_t) (ext : Nat),
      vm.running = true → vm.task.pc < vm.code.length →
      svm_decode_instruction (vm.code.getD vm.task.pc 0) =
        ⟨OP_CMP, ext, ARG_NONE, ARG_NONE⟩ →
      svm_cycle sys vm = (SVM_OK, { vm with task := { vm.task with
          pc := vm.task.pc + 1,
          flags := { vm.task.flags with eq := true, ge := true, le := true } } })) := by
  have hzero : ∀ (vm : svm_t) (ty : Nat), svm_is_arg_register ty = false → ty ≠ ARG_IMM →
      svm_get_arg_value vm ty = (0, vm) := by
    intro vm ty h1 h2
    unfold svm_get_arg_value
    simp [h1, h2]
  refine ⟨hzero, ?_⟩
  intro sys vm ext hrun hpc hdec
  have hz : ∀ vmx : svm_t, svm_get_arg_value vmx ARG_NONE = (0, vmx) := fun vmx =>
    hzero vmx ARG_NONE (by decide) (by decide)
  rw [svm_cycle_eq_execute sys vm hrun hpc, hdec, svm_execute_cmp _ _ _ rfl]
  simp only [svm_op_cmp, hz]
  norm_num

/-- Concrete VM whose single instruction is `CMP` with both arg bytes NONE. -/
def vm_cmp_none : svm_t :=
  ⟨true, task0 (List.replicate 16 0) (List.replicate 4 0) (List.replicate 8 0) 0,
    [svm_instruction_to_int32 (svm_pack_instruction OP_CMP EXT_NONE ARG_NONE ARG_NONE)]⟩

/-- Witness for C10 at concrete inputs. -/
theorem C10_none_arg_zero_and_cmp_witness :
    svm_get_arg_value vm_cmp_none ARG_NONE = (0, vm_cmp_none) ∧
    svm_cycle svm_sys_handler_default vm_cmp_none = (SVM_OK,
      { vm_cmp_none with task := { vm_cmp_none.task with
          pc := vm_cmp_none.task.pc + 1,
          flags := { vm_cmp_none.task.flags with eq := true, ge := true, le := true } } }) :=
  ⟨C10_none_arg_zero_and_cmp.1 vm_cmp_none ARG_NONE (by decide) (by decide),
    C10_none_arg_zero_and_cmp.2 svm_sys_handler_default vm_cmp_none EXT_NONE
      (by decide) (by decide) (by decide)⟩

/-- C5: executing `CMP R0, R1` on signed 32-bit values `a`, `b` sets EQ
iff `a = b` would set it, NE for `a ≠ b`, LT for `a < b`, LE for `a ≤ b`,
GT for `a > b`, GE for `a ≥ b` — each flag becomes the OR of its previous
value with the comparison outcome, so no flag is ever cleared and NZ/Z are
untouched. -/
theorem C5_cmp_sets_without_clearing (sys : Int → List Int → List Int)
    (vm : svm_t) (ext : Nat) (a b : Int)
    (hrun : vm.running = true) (hpc : vm.task.pc < vm.code.length)
    (hdec : svm_decode_instruction (vm.code.getD vm.task.pc 0) = ⟨OP_CMP, ext, 1, 2⟩)
    (ha : vm.task.registers.getD 0 0 = a) (hb : vm.task.registers.getD 1 0 = b)
    (halo : -2147483648 ≤ a) (hahi : a < 2147483648)
    (hblo : -2147483648 ≤ b) (hbhi : b < 2147483648) :
    svm_cycle sys vm = (SVM_OK, { vm with task := { vm.task with
        pc := vm.task.pc + 1,
        flags := ⟨vm.task.flags.eq || decide (a = b),
                  vm.task.flags.ne || decide (a ≠ b),
                  vm.task.flags.lt || decide (a < b),
                  vm.task.flags.le || decide (a ≤ b),
                  vm.task.flags.gt || decide (b < a),
                  vm.task.flags.ge || decide (b ≤ a),
                  vm.task.flags.nz, vm.task.flags.z⟩ } }) := by
  have hg1 : ∀ vmx : svm_t, svm_get_arg_value vmx 1 =
      (vmx.task.registers.getD 0 0, vmx) := by
    intro vmx
    rw [svm_get_arg_value_reg vmx 1 (by decide)]
    norm_num [svm_arg_to_reg]
  have hg2 : ∀ vmx : svm_t, svm_get_arg_value vmx 2 =
      (vmx.task.registers.getD 1 0, vmx) := by
    intro vmx
    rw [svm_get_arg_value_reg vmx 2 (by decide)]
    norm_num [svm_arg_to_reg]
  rw [svm_cycle_eq_execute sys vm hrun hpc, hdec, svm_execute_cmp _ _ _ rfl]
  simp only [svm_op_cmp, hg1, hg2]
  simp only [List.getD_eq_getElem?_getD] at ha hb
  rcases lt_trichotomy a b with hab | hab | hab
  · have h1 : a ≠ b := hab.ne
    have h2 : ¬ b < a := lt_asymm hab
    have h3 : ¬ b ≤ a := not_le.mpr hab
    simp [ha, hb, hab, h1, h2, h3, hab.le, decide_eq_true hab, decide_eq_true hab.le,
      decide_eq_true h1, decide_eq_false h2, decide_eq_false h3,
      decide_eq_false (fun hc => h1 hc)]
  · subst hab
    simp [ha, hb, lt_irrefl, le_refl]
  · have h1 : a ≠ b := hab.ne'
    have h2 : ¬ a < b := lt_asymm hab
    have h3 : ¬ a ≤ b := not_le.mpr hab
    simp [ha, hb, hab, h1, h2, h3, hab.le, decide_eq_true hab, decide_eq_true hab.le,
      decide_eq_true h1, decide_eq_false h2, decide_eq_false h3]

/-- Concrete VM for the C5 witness: `CMP R0, R1` with `R0 = 5`, `R1 = 7`. -/
def vm_cmp_57 : svm_t :=
  ⟨true, ⟨flags_clear, 0, 0, 0, 5 :: 7 :: List.replicate 14 0,
      List.replicate 4 0, List.replicate 8 0⟩,
    [svm_instruction_to_int32 (svm_pack_instruction OP_CMP EXT_NONE 1 2)]⟩

/-- Witness for C5 at the concrete input `vm_cmp_57` (a = 5, b = 7). -/
theorem C5_cmp_sets_without_clearing_witness :
    svm_cycle svm_sys_handler_default vm_cmp_57 = (SVM_OK,
      { vm_cmp_57 with task := { vm_cmp_57.task with
          pc := vm_cmp_57.task.pc + 1,
          flags := ⟨vm_cmp_57.task.flags.eq || decide ((5 : Int) = 7),
                    vm_cmp_57.task.flags.ne || decide ((5 : Int) ≠ 7),
                    vm_cmp_57.task.flags.lt || decide ((5 : Int) < 7),
                    vm_cmp_57.task.flags.le || decide ((5 : Int) ≤ 7),
                    vm_cmp_57.task.flags.gt || decide ((7 : Int) < 5),
                    vm_cmp_57.task.flags.ge || decide ((7 : Int) ≤ 5),
                    vm_cmp_57.task.flags.nz, vm_cmp_57.task.flags.z⟩ } }) :=
  C5_cmp_sets_without_clearing svm_sys_handler_default vm_cmp_57 EXT_NONE 5 7
    (by decide) (by decide) (by decide) (by decide) (by decide)
    (by decide) (by decide) (by decide) (by decide)

/-! ## List helper lemmas for the stack loops -/

theorem list_getD_set_self (l : List Int) (i : Nat) (v : Int) (h : i < l.length) :
    (l.set i v).getD i 0 = v := by
  induction l generalizing i with
  | nil => simp at h
  | cons a t ih =>
    cases i with
    | zero => rfl
    | succ j =>
      simp only [List.set, List.getD_cons_succ]
      exact ih j (by simpa using h)

theorem list_getD_set_ne (l : List Int) (i j : Nat) (v : Int) (h : i ≠ j) :
    (l.set i v).getD j 0 = l.getD j 0 := by
  induction l generalizing i j with
  | nil => simp [List.set]
  | cons a t ih =>
    cases i with
    | zero =>
      cases j with
      | zero => exact absurd rfl h
      | succ k => simp [List.set, List.getD_cons_succ]
    | succ i2 =>
      cases j with
      | zero => simp [List.set, List.getD_cons_zero]
      | succ k =>
        simp only [List.set, List.getD_cons_succ]
        exact ih i2 k (by omega)

theorem list_set_getD_self (l : List Int) (i : Nat) (h : i < l.length) :
    l.set i (l.getD i 0) = l := by
  induction l generalizing i with
  | nil => rfl
  | cons a t ih =>
    cases i with
    | zero => simp [List.set, List.getD_cons_zero]
    | succ j =>
      simp only [List.set, List.getD_cons_succ, List.cons.injEq, true_and]
      exact ih j (by simpa using h)

/-! ## Push/pop loop characterization -/

theorem svm_push_loop_snd (n : Nat) : ∀ (r sp : Nat) (regs stack : List Int),
    (svm_push_loop n r sp regs stack).2 = sp + n := by
  induction n with
  | zero => intro r sp regs stack; simp [svm_push_loop]
  | succ m ih =>
    intro r sp regs stack
    rw [svm_push_loop, ih]
    omega

theorem svm_push_loop_length (n : Nat) : ∀ (r sp : Nat) (regs stack : List Int),
    (svm_push_loop n r sp regs stack).1.length = stack.length := by
  induction n with
  | zero => intro r sp regs stack; simp [svm_push_loop]
  | succ m ih =>
    intro r sp regs stack
    rw [svm_push_loop, ih]
    exact List.length_set stack sp _

theorem svm_push_loop_getD_lt (n : Nat) : ∀ (r sp : Nat) (regs stack : List Int)
    (i : Nat), i < sp →
    (svm_push_loop n r sp regs stack).1.getD i 0 = stack.getD i 0 := by
  induction n with
  | zero => intro r sp regs stack i _; simp [svm_push_loop]
  | succ m ih =>
    intro r sp regs stack i hi
    rw [svm_push_loop, ih (r + 1) (sp + 1) regs _ i (by omega)]
    exact list_getD_set_ne stack sp i _ (by omega)

theorem svm_push_loop_getD (n : Nat) : ∀ (r sp : Nat) (regs stack : List Int)
    (j : Nat), j < n → sp + n ≤ stack.length →
    (svm_push_loop n r sp regs stack).1.getD (sp + j) 0 = regs.getD (r + j) 0 := by
  induction n with
  | zero => intro r sp regs stack j hj _; omega
  | succ m ih =>
    intro r sp regs stack j hj hlen
    rw [svm_push_loop]
    cases j with
    | zero =>
      simp only [Nat.add_zero]
      rw [svm_push_loop_getD_lt m (r + 1) (sp + 1) regs _ sp (by omega)]
      exact list_getD_set_self stack sp _ (by omega)
    | succ k =>
      have e := ih (r + 1) (sp + 1) regs (stack.set sp (regs.getD r 0)) k (by omega)
        (by rw [List.length_set]; omega)
      rw [show sp + (k + 1) = sp + 1 + k by omega, show r + (k + 1) = r + 1 + k by omega]
      exact e

theorem svm_pop_loop_restores (n : Nat) : ∀ (lo sp : Nat) (regs S : List Int),
    lo + n ≤ regs.length →
    (∀ j, j < n → S.getD (sp + j) 0 = regs.getD (lo + j) 0) →
    svm_pop_loop n (lo + n - 1) (sp + n) regs S = (regs, sp) := by
  induction n with
  | zero => intro lo sp regs S _ _; simp [svm_pop_loop]
  | succ m ih =>
    intro lo sp regs S hlen hS
    rw [svm_pop_loop]
    have e1 : sp + (m + 1) - 1 = sp + m := by omega
    have e2 : lo + (m + 1) - 1 = lo + m := by omega
    rw [e1, e2]
    rw [hS m (by omega), list_set_getD_self regs (lo + m) (by omega)]
    exact ih lo sp regs S (by omega) (fun j hj => hS j (by omega))

theorem svm_arg_to_reg_succ (r : Nat) (h : r ≤ 15) : svm_arg_to_reg (r + 1) = r := by
  interval_cases r <;> rfl

theorem svm_is_arg_register_succ (r : Nat) (h : r ≤ 15) :
    svm_is_arg_register (r + 1) = true := by
  simp only [svm_is_arg_register, ARG_NONE, ARG_IMM, Bool.and_eq_true, decide_eq_true_eq]
  omega

/-- The `OP_PUSH` range case on register arguments `Rlo`, `Rhi` with
`lo < hi` and room on the stack: stores `Rlo..Rhi` in ascending order and
advances `sp` by `hi - lo + 1`. -/
theorem svm_op_push_range (vm : svm_t) (op ext lo hi : Nat)
    (hlh : lo < hi) (hhi : hi ≤ 15)
    (hcond : svm_check_condition vm.task.flags ext = true)
    (hsp : vm.task.sp + (hi - lo) < vm.task.stack.length) :
    svm_op_push vm ⟨op, ext, lo + 1, hi + 1⟩ = (SVM_OK, { vm with task := { vm.task with
      stack := (svm_push_loop (hi + 1 - lo) lo vm.task.sp vm.task.registers vm.task.stack).1,
      sp := (svm_push_loop (hi + 1 - lo) lo vm.task.sp vm.task.registers vm.task.stack).2 } }) := by
  have harg1 : ¬(lo + 1 = ARG_IMM) := by unfold ARG_IMM; omega
  have harg2 : ¬(hi + 1 = ARG_NONE) := by unfold ARG_NONE; omega
  have hlo : svm_arg_to_reg (lo + 1) = lo := svm_arg_to_reg_succ lo (by omega)
  have hhi2 : svm_arg_to_reg (hi + 1) = hi := svm_arg_to_reg_succ hi hhi
  have hover : ¬(vm.task.sp + hi - lo ≥ vm.task.stack.length) := by omega
  simp [svm_op_push, harg1, harg2, hlo, hhi2, hcond, hlh, hover]

/-- The `OP_POP` range case on register arguments `Rlo`, `Rhi` with
`lo < hi` and at least `hi - lo + 1` values on the stack: loads `Rhi..Rlo`
highest first and moves `sp` down by `hi - lo + 1`. -/
theorem svm_op_pop_range (vm : svm_t) (op ext lo hi : Nat)
    (hlh : lo < hi) (hhi : hi ≤ 15)
    (hcond : svm_check_condition vm.task.flags ext = true)
    (hsp : ¬(vm.task.sp < hi - lo)) :
    svm_op_pop vm ⟨op, ext, lo + 1, hi + 1⟩ = (SVM_OK, { vm with task := { vm.task with
      registers := (svm_pop_loop (hi + 1 - lo) hi vm.task.sp vm.task.registers vm.task.stack).1,
      sp := (svm_pop_loop (hi + 1 - lo) hi vm.task.sp vm.task.registers vm.task.stack).2 } }) := by
  have harg2 : ¬(hi + 1 = ARG_NONE) := by unfold ARG_NONE; omega
  have hreg1 : svm_is_arg_register (lo + 1) = true := svm_is_arg_register_succ lo (by omega)
  have hreg2 : svm_is_arg_register (hi + 1) = true := svm_is_arg_register_succ hi hhi
  have hlo : svm_arg_to_reg (lo + 1) = lo := svm_arg_to_reg_succ lo (by omega)
  have hhi2 : svm_arg_to_reg (hi + 1) = hi := svm_arg_to_reg_succ hi hhi
  simp [svm_op_pop, harg2, hreg1, hreg2, hlo, hhi2, hcond, hlh, hsp]

/-- VM holding the two-instruction program `PUSH Rlo,Rhi ; POP Rlo,Rhi`
(with a common extension byte) over an arbitrary initial task state. -/
def vm_push_pop (f : SvmFlags) (ext lo hi rpc sp : Nat)
    (regs stack cs : List Int) : svm_t :=
  ⟨true, ⟨f, 0, rpc, sp, regs, stack, cs⟩,
    [svm_instruction_to_int32 (svm_pack_instruction OP_PUSH ext (lo + 1) (hi + 1)),
     svm_instruction_to_int32 (svm_pack_instruction OP_POP ext (lo + 1) (hi + 1))]⟩

/-- One full cycle on a `PUSH Rlo,Rhi` instruction (range case). -/
theorem svm_cycle_push_range (sys : Int → List Int → List Int) (vm : svm_t)
    (ext lo hi : Nat)
    (hrun : vm.running = true) (hpc : vm.task.pc < vm.code.length)
    (hdec : svm_decode_instruction (vm.code.getD vm.task.pc 0) =
      (⟨OP_PUSH, ext, lo + 1, hi + 1⟩ : svm_instruction_t))
    (hlh : lo < hi) (hhi : hi ≤ 15)
    (hcond : svm_check_condition vm.task.flags ext = true)
    (hsp : vm.task.sp + (hi - lo) < vm.task.stack.length) :
    svm_cycle sys vm = (SVM_OK, { vm with task := { vm.task with
      pc := vm.task.pc + 1,
      stack := (svm_push_loop (hi + 1 - lo) lo vm.task.sp vm.task.registers vm.task.stack).1,
      sp := (svm_push_loop (hi + 1 - lo) lo vm.task.sp vm.task.registers vm.task.stack).2 } }) := by
  rw [svm_cycle_eq_execute sys vm hrun hpc, hdec, svm_execute_push _ _ _ rfl]
  exact svm_op_push_range _ OP_PUSH ext lo hi hlh hhi hcond hsp

/-- One full cycle on a `POP Rlo,Rhi` instruction (range case). -/
theorem svm_cycle_pop_range (sys : Int → List Int → List Int) (vm : svm_t)
    (ext lo hi : Nat)
    (hrun : vm.running = true) (hpc : vm.task.pc < vm.code.length)
    (hdec : svm_decode_instruction (vm.code.getD vm.task.pc 0) =
      (⟨OP_POP, ext, lo + 1, hi + 1⟩ : svm_instruction_t))
    (hlh : lo < hi) (hhi : hi ≤ 15)
    (hcond : svm_check_condition vm.task.flags ext = true)
    (hsp : ¬(vm.task.sp < hi - lo)) :
    svm_cycle sys vm = (SVM_OK, { vm with task := { vm.task with
      pc := vm.task.pc + 1,
      registers := (svm_pop_loop (hi + 1 - lo) hi vm.task.sp vm.task.registers vm.task.stack).1,
      sp := (svm_pop_loop (hi + 1 - lo) hi vm.task.sp vm.task.registers vm.task.stack).2 } }) := by
  rw [svm_cycle_eq_execute sys vm hrun hpc, hdec, svm_execute_pop _ _ _ rfl]
  exact svm_op_pop_range _ OP_POP ext lo hi hlh hhi hcond hsp

/-- C3: `PUSH Rlo,Rhi` immediately followed by `POP Rlo,Rhi` (`lo < hi`,
predicate satisfied, enough stack room so both succeed) returns every
register `Rlo..Rhi` to its pre-push value and `sp` to its pre-push value:
the push stores `Rlo..Rhi` ascending and the pop reloads `Rhi..Rlo`
highest first. -/
theorem C3_push_pop_range_roundtrip (sys : Int → List Int → List Int)
    (f : SvmFlags) (ext lo hi rpc sp : Nat) (regs stack cs : List Int)
    (hlh : lo < hi) (hhi : hi ≤ 15) (hregs : regs.length = 16)
    (hsp : sp + (hi - lo) < stack.length)
    (hext : ext < 256) (hcond : svm_check_condition f ext = true) :
    (svm_cycle sys (vm_push_pop f ext lo hi rpc sp regs stack cs)).1 = SVM_OK ∧
    (svm_cycle sys ((svm_cycle sys (vm_push_pop f ext lo hi rpc sp regs stack cs)).2)).1 = SVM_OK ∧
    (svm_cycle sys ((svm_cycle sys (vm_push_pop f ext lo hi rpc sp regs stack cs)).2)).2.task.registers = regs ∧
    (svm_cycle sys ((svm_cycle sys (vm_push_pop f ext lo hi rpc sp regs stack cs)).2)).2.task.sp = sp := by
  have hsnd := svm_push_loop_snd (hi + 1 - lo) lo sp regs stack
  have hS : ∀ j, j < hi + 1 - lo →
      (svm_push_loop (hi + 1 - lo) lo sp regs stack).1.getD (sp + j) 0 = regs.getD (lo + j) 0 :=
    fun j hj => svm_push_loop_getD (hi + 1 - lo) lo sp regs stack j hj (by omega)
  have hpop0 := svm_pop_loop_restores (hi + 1 - lo) lo sp regs
    ((svm_push_loop (hi + 1 - lo) lo sp regs stack).1) (by omega) hS
  rw [show lo + (hi + 1 - lo) - 1 = hi by omega] at hpop0
  have hpop : svm_pop_loop (hi + 1 - lo) hi
      (svm_push_loop (hi + 1 - lo) lo sp regs stack).2 regs
      (svm_push_loop (hi + 1 - lo) lo sp regs stack).1 = (regs, sp) := by
    rw [hsnd]; exact hpop0
  have h1 : svm_cycle sys (vm_push_pop f ext lo hi rpc sp regs stack cs) =
      (SVM_OK, { vm_push_pop f ext lo hi rpc sp regs stack cs with task :=
        { (vm_push_pop f ext lo hi rpc sp regs stack cs).task with
          pc := (vm_push_pop f ext lo hi rpc sp regs stack cs).task.pc + 1,
          stack := (svm_push_loop (hi + 1 - lo) lo sp regs stack).1,
          sp := (svm_push_loop (hi + 1 - lo) lo sp regs stack).2 } }) :=
    svm_cycle_push_range sys (vm_push_pop f ext lo hi rpc sp regs stack cs) ext lo hi
      rfl (by show (0 : Nat) < 2; omega)
      (svm_decode_pack OP_PUSH ext (lo + 1) (hi + 1) (by norm_num [OP_PUSH]) hext
        (by omega) (by omega))
      hlh hhi hcond hsp
  rw [h1]
  have h2 : svm_cycle sys ({ vm_push_pop f ext lo hi rpc sp regs stack cs with task :=
        { (vm_push_pop f ext lo hi rpc sp regs stack cs).task with
          pc := (vm_push_pop f ext lo hi rpc sp regs stack cs).task.pc + 1,
          stack := (svm_push_loop (hi + 1 - lo) lo sp regs stack).1,
          sp := (svm_push_loop (hi + 1 - lo) lo sp regs stack).2 } } : svm_t) =
      (SVM_OK, { ({ vm_push_pop f ext lo hi rpc sp regs stack cs with task :=
        { (vm_push_pop f ext lo hi rpc sp regs stack cs).task with
          pc := (vm_push_pop f ext lo hi rpc sp regs stack cs).task.pc + 1,
          stack := (svm_push_loop (hi + 1 - lo) lo sp regs stack).1,
          sp := (svm_push_loop (hi + 1 - lo) lo sp regs stack).2 } } : svm_t) with task :=
        { ({ vm_push_pop f ext lo hi rpc sp regs stack cs with task :=
          { (vm_push_pop f ext lo hi rpc sp regs stack cs).task with
            pc := (vm_push_pop f ext lo hi rpc sp regs stack cs).task.pc + 1,
            stack := (svm_push_loop (hi + 1 - lo) lo sp regs stack).1,
            sp := (svm_push_loop (hi + 1 - lo) lo sp regs stack).2 } } : svm_t).task with
          pc := (0 : Nat) + 1 + 1,
          registers := (svm_pop_loop (hi + 1 - lo) hi
            (svm_push_loop (hi + 1 - lo) lo sp regs stack).2 regs
            (svm_push_loop (hi + 1 - lo) lo sp regs stack).1).1,
          sp := (svm_pop_loop (hi + 1 - lo) hi
            (svm_push_loop (hi + 1 - lo) lo sp regs stack).2 regs
            (svm_push_loop (hi + 1 - lo) lo sp regs stack).1).2 } }) :=
    svm_cycle_pop_range sys _ ext lo hi
      rfl (by show (0 : Nat) + 1 < 2; omega)
      (svm_decode_pack OP_POP ext (lo + 1) (hi + 1) (by norm_num [OP_POP]) hext
        (by omega) (by omega))
      hlh hhi hcond
      (by
        show ¬((svm_push_loop (hi + 1 - lo) lo sp regs stack).2 < hi - lo)
        rw [hsnd]; omega)
  refine ⟨rfl, ?_, ?_, ?_⟩
  · rw [h2]
  · rw [h2]
    show (svm_pop_loop (hi + 1 - lo) hi
      (svm_push_loop (hi + 1 - lo) lo sp regs stack).2 regs
      (svm_push_loop (hi + 1 - lo) lo sp regs stack).1).1 = regs
    rw [hpop]
  · rw [h2]
    show (svm_pop_loop (hi + 1 - lo) hi
      (svm_push_loop (hi + 1 - lo) lo sp regs stack).2 regs
      (svm_push_loop (hi + 1 - lo) lo sp regs stack).1).2 = sp
    rw [hpop]

/-- Registers for the C3 witness: `R0 = 1`, `R1 = 2`, `R2 = 3`. -/
def c3_regs : List Int := 1 :: 2 :: 3 :: List.replicate 13 0

/-- Witness for C3 at the concrete input `PUSH R0,R2 ; POP R0,R2` over
`c3_regs` with an empty stack of capacity 4. -/
theorem C3_push_pop_range_roundtrip_witness :
    (svm_cycle svm_sys_handler_default
      (vm_push_pop flags_clear 0 0 2 0 0 c3_regs (List.replicate 4 0) (List.replicate 8 0))).1 = SVM_OK ∧
    (svm_cycle svm_sys_handler_default ((svm_cycle svm_sys_handler_default
      (vm_push_pop flags_clear 0 0 2 0 0 c3_regs (List.replicate 4 0) (List.replicate 8 0))).2)).1 = SVM_OK ∧
    (svm_cycle svm_sys_handler_default ((svm_cycle svm_sys_handler_default
      (vm_push_pop flags_clear 0 0 2 0 0 c3_regs (List.replicate 4 0) (List.replicate 8 0))).2)).2.task.registers = c3_regs ∧
    (svm_cycle svm_sys_handler_default ((svm_cycle svm_sys_handler_default
      (vm_push_pop flags_clear 0 0 2 0 0 c3_regs (List.replicate 4 0) (List.replicate 8 0))).2)).2.task.sp = 0 :=
  C3_push_pop_range_roundtrip svm_sys_handler_default flags_clear 0 0 2 0 0 c3_regs
    (List.replicate 4 0) (List.replicate 8 0)
    (by decide) (by decide) (by decide) (by decide) (by decide) (by decide)
